import Mathlib

/-!
Shallow embedding of the decision core of the credit-approval system
(`apps/core/utils.py`, `apps/loans/services.py`, models from
`apps/customers/models.py` and `apps/loans/models.py`).

Python `Decimal` values are embedded as exact rationals (`ℚ`); the final
`quantize` of every financial computation is made explicit.  The float
arithmetic inside the credit-score factors is embedded as exact rational
arithmetic (the concrete inputs used in counterexamples are chosen so
that the float computation of the source is exact and agrees with the
rational one).  Dates are a plain year/month/day structure, and the
storage layer is a pure state record holding the customers and loans
lists; the Django ORM queries become list filters and sums.
-/

namespace Credit

/-- `Decimal.quantize(Decimal('0.01'), rounding=ROUND_HALF_UP)`:
round to 2 decimal places, ties away from zero. -/
def quantize2 (q : ℚ) : ℚ :=
  if q < 0 then -(((⌊-q * 100 + 1/2⌋ : ℤ) : ℚ) / 100)
  else ((⌊q * 100 + 1/2⌋ : ℤ) : ℚ) / 100

/-- `calculate_emi` from `apps/core/utils.py`.  The `ValueError` branches
(principal ≤ 0, negative rate, tenure < 1) give `none`; otherwise the
EMI is `P*r*(1+r)^n / ((1+r)^n - 1)` at monthly rate `r = annual_rate/1200`
(or `P/n` when the rate is zero), quantized to 2 places, half-up. -/
def calculate_emi (principal annual_rate : ℚ) (tenure_months : ℕ) : Option ℚ :=
  if principal ≤ 0 then none
  else if annual_rate < 0 then none
  else if tenure_months < 1 then none
  else if annual_rate = 0 then
    some (quantize2 (principal / (tenure_months : ℚ)))
  else
    let monthly_rate := annual_rate / 1200
    let one_plus_r := 1 + monthly_rate
    let power_term := one_plus_r ^ tenure_months
    some (quantize2 (principal * monthly_rate * power_term / (power_term - 1)))

/-- Calendar date (used for `start_date`, `end_date`, `date.today()`). -/
structure Date where
  year : ℤ
  month : ℕ
  day : ℕ
deriving DecidableEq, Repr

/-- Gregorian leap year. -/
def isLeap (y : ℤ) : Bool :=
  (y % 4 == 0 && y % 100 != 0) || (y % 400 == 0)

/-- Number of days in a month. -/
def daysInMonth (y : ℤ) (m : ℕ) : ℕ :=
  if m = 2 then (if isLeap y then 29 else 28)
  else if m = 4 ∨ m = 6 ∨ m = 9 ∨ m = 11 then 30
  else 31

/-- `dateutil.relativedelta(months=k)` applied to a date: shift the month
index by `k` (carrying into the year with floor semantics) and clamp the
day to the length of the target month. -/
def addMonths (d : Date) (k : ℕ) : Date :=
  let m0 : ℤ := d.year * 12 + ((d.month : ℤ) - 1) + (k : ℤ)
  let y : ℤ := m0 / 12
  let m : ℕ := (m0 % 12).toNat + 1
  { year := y, month := m, day := min d.day (daysInMonth y m) }

/-- `Customer` row (`apps/customers/models.py`): the fields read or
written by the decision core.  `monthly_salary` and `approved_limit` are
`PositiveIntegerField`s, `current_debt` a 2-place decimal. -/
structure Customer where
  id : ℕ
  monthly_salary : ℕ
  approved_limit : ℕ
  current_debt : ℚ
deriving DecidableEq, Repr

/-- `Loan` row (`apps/loans/models.py`). -/
structure Loan where
  id : ℕ
  customer_id : ℕ
  loan_amount : ℚ
  tenure : ℕ
  interest_rate : ℚ
  monthly_installment : ℚ
  emis_paid_on_time : ℕ
  start_date : Date
  end_date : Date
  is_active : Bool
deriving DecidableEq, Repr

/-- `Loan.objects.filter(customer=c, is_active=True).aggregate(Sum('monthly_installment'))`
over a customer's loan list (used in `EligibilityService.check` step 3 and
in `LoanService._get_rejection_message`). -/
def currentEmiTotal (loans : List Loan) : ℚ :=
  ((loans.filter (·.is_active)).map (·.monthly_installment)).sum

/-- Python's built-in `round`: round half to even. -/
def roundHalfEven (q : ℚ) : ℤ :=
  let f := ⌊q⌋
  let r := q - (f : ℚ)
  if r < 1/2 then f
  else if 1/2 < r then f + 1
  else if f % 2 = 0 then f else f + 1

namespace CreditScoreService

/-- Factor i sub-score: on-time payment ratio times weight 30. -/
def scoreOnTime (loans : List Loan) : ℚ :=
  let total_emis_due : ℕ := (loans.map (·.tenure)).sum
  let total_emis_on_time : ℕ := (loans.map (·.emis_paid_on_time)).sum
  let on_time_ratio : ℚ :=
    if 0 < total_emis_due then (total_emis_on_time : ℚ) / (total_emis_due : ℚ) else 0
  on_time_ratio * 30

/-- Factor ii sub-score: loan-count bracket ratio times weight 20. -/
def scoreNumLoans (loans : List Loan) : ℚ :=
  let total_loans := loans.length
  let loan_count_ratio : ℚ :=
    if total_loans ≤ 2 then 1
    else if total_loans ≤ 5 then 7/10
    else if total_loans ≤ 10 then 4/10
    else 1/10
  loan_count_ratio * 20

/-- Factor iii sub-score: current-year activity bracket ratio times weight 20. -/
def scoreActivity (today : Date) (loans : List Loan) : ℚ :=
  let current_year_loans := (loans.filter (fun l => l.start_date.year == today.year)).length
  let activity_ratio : ℚ :=
    if current_year_loans = 0 then 1
    else if current_year_loans ≤ 2 then 7/10
    else if current_year_loans ≤ 4 then 4/10
    else 1/10
  activity_ratio * 20

/-- Factor iv sub-score: loan-volume bracket ratio times weight 30. -/
def scoreVolume (customer : Customer) (loans : List Loan) : ℚ :=
  let total_loan_volume : ℚ := (loans.map (·.loan_amount)).sum
  let volume_score_ratio : ℚ :=
    if 0 < customer.approved_limit then
      let volume_ratio := total_loan_volume / (customer.approved_limit : ℚ)
      if volume_ratio ≤ 1/4 then 1
      else if volume_ratio ≤ 1/2 then 7/10
      else if volume_ratio ≤ 3/4 then 4/10
      else if volume_ratio ≤ 1 then 1/5
      else 0
    else 0
  volume_score_ratio * 30

/-- `CreditScoreService.calculate` from `apps/loans/services.py`, on the
customer's loan list.  Empty history gives the baseline 50; an active-loan
principal sum above `approved_limit` short-circuits to 0; otherwise the
four weighted sub-scores are summed, rounded with Python's `round`
(half-to-even) and clamped to `[0, 100]`. -/
def calculate (today : Date) (customer : Customer) (loans : List Loan) : ℤ :=
  if loans.isEmpty then 50
  else
    let active_loans := loans.filter (·.is_active)
    let total_current_loan_amount : ℚ := (active_loans.map (·.loan_amount)).sum
    if (customer.approved_limit : ℚ) < total_current_loan_amount then 0
    else
      let total_score :=
        roundHalfEven
          (scoreOnTime loans + scoreNumLoans loans +
            scoreActivity today loans + scoreVolume customer loans)
      max 0 (min 100 total_score)

/-- Variant of `calculate` that follows the specification's wording
"round to the nearest integer ... ties round up" (Mathlib's `round` is
exactly round-half-up).  Kept only to compare against the source's
rounding; everything else is identical to `calculate`. -/
def calculateSpecHalfUp (today : Date) (customer : Customer) (loans : List Loan) : ℤ :=
  if loans.isEmpty then 50
  else
    let active_loans := loans.filter (·.is_active)
    let total_current_loan_amount : ℚ := (active_loans.map (·.loan_amount)).sum
    if (customer.approved_limit : ℚ) < total_current_loan_amount then 0
    else
      let total_score :=
        round
          (scoreOnTime loans + scoreNumLoans loans +
            scoreActivity today loans + scoreVolume customer loans)
      max 0 (min 100 total_score)

end CreditScoreService

/-- The eligibility result dict (`EligibilityService._build_response`). -/
structure EligibilityResponse where
  customer_id : ℕ
  approval : Bool
  interest_rate : ℚ
  corrected_interest_rate : ℚ
  tenure : ℕ
  monthly_installment : ℚ
deriving DecidableEq, Repr

namespace EligibilityService

/-- Steps 4 and 5 of `EligibilityService.check`: the slab policy.  Returns
the slab approval flag together with the (possibly corrected) rate. -/
def slabDecision (credit_score : ℤ) (interest_rate : ℚ) : Bool × ℚ :=
  if 50 < credit_score then (true, interest_rate)
  else if 30 < credit_score ∧ credit_score ≤ 50 then
    (if 12 < interest_rate then (true, interest_rate) else (true, 12))
  else if 10 < credit_score ∧ credit_score ≤ 30 then
    (if 16 < interest_rate then (true, interest_rate) else (true, 16))
  else (false, interest_rate)

/-- `EligibilityService.check` from `apps/loans/services.py`.  `loans` is
the customer's loan list; `none` corresponds to a `ValueError` escaping
from `calculate_emi`. -/
def check (today : Date) (customer : Customer) (loans : List Loan)
    (loan_amount interest_rate : ℚ) (tenure : ℕ) : Option EligibilityResponse :=
  let credit_score := CreditScoreService.calculate today customer loans
  if (customer.approved_limit : ℚ) < loan_amount then
    (calculate_emi loan_amount interest_rate tenure).map fun new_emi =>
      ⟨customer.id, false, interest_rate, interest_rate, tenure, new_emi⟩
  else
    let current_emi_total := currentEmiTotal loans
    let emi_limit : ℚ := (customer.monthly_salary : ℚ) * (1/2)
    (calculate_emi loan_amount interest_rate tenure).bind fun new_emi =>
      if emi_limit ≤ current_emi_total then
        some ⟨customer.id, false, interest_rate, interest_rate, tenure, new_emi⟩
      else
        let slab := slabDecision credit_score interest_rate
        (calculate_emi loan_amount slab.2 tenure).map fun final_emi =>
          let approval := slab.1 && !(emi_limit < current_emi_total + final_emi)
          ⟨customer.id, approval, interest_rate, slab.2, tenure, final_emi⟩

end EligibilityService

/-- The mutable store: customer rows, loan rows, the next loan primary
key, and the current date. -/
structure State where
  customers : List Customer
  loans : List Loan
  next_loan_id : ℕ
  today : Date
deriving DecidableEq, Repr

/-- `Loan.objects.filter(customer_id=cid)`. -/
def State.loansOf (st : State) (cid : ℕ) : List Loan :=
  st.loans.filter (·.customer_id == cid)

/-- Failure kinds of the origination path: `CustomerNotFoundError`,
`ValueError` from `calculate_emi`, and a storage-layer abort. -/
inductive LoanError where
  | customerNotFound
  | invalidInput
  | transactionAborted
deriving DecidableEq, Repr

/-- The dict returned by `LoanService.create_loan`. -/
structure CreateLoanResult where
  loan_id : Option ℕ
  customer_id : ℕ
  loan_approved : Bool
  message : String
  monthly_installment : Option ℚ
deriving DecidableEq, Repr

namespace LoanService

/-- `LoanService._get_rejection_message`. -/
def get_rejection_message (today : Date) (customer : Customer) (loans : List Loan) : String :=
  let current_emi := currentEmiTotal loans
  let emi_limit : ℚ := (customer.monthly_salary : ℚ) * (1/2)
  let credit_score := CreditScoreService.calculate today customer loans
  let reasons : List String :=
    (if credit_score ≤ 10 then
      ["Credit score too low (" ++ toString credit_score ++ "/100)."] else []) ++
    (if emi_limit ≤ current_emi then
      ["Current EMIs exceed 50% of monthly income."] else [])
  if reasons.isEmpty then "Loan not approved based on eligibility criteria."
  else String.intercalate " " reasons

/-- The body of `LoanService.create_loan` (everything inside the
`transaction.atomic` block).  `storageFails` injects a storage-layer
failure between the loan insert and the debt update, to model a failing
write.  On the approved path the new loan row and the debt increment are
issued in the source's order. -/
def create_loan_body (storageFails : Bool) (st : State)
    (customer_id : ℕ) (loan_amount interest_rate : ℚ) (tenure : ℕ) :
    Except LoanError (State × CreateLoanResult) :=
  match st.customers.find? (·.id == customer_id) with
  | none => .error .customerNotFound
  | some customer =>
    let loans := st.loansOf customer_id
    match EligibilityService.check st.today customer loans loan_amount interest_rate tenure with
    | none => .error .invalidInput
    | some elig =>
      if elig.approval then
        let final_rate := elig.corrected_interest_rate
        let monthly_installment := elig.monthly_installment
        let today := st.today
        let end_date := addMonths today tenure
        let loan : Loan :=
          { id := st.next_loan_id, customer_id := customer_id,
            loan_amount := loan_amount, tenure := tenure,
            interest_rate := final_rate,
            monthly_installment := monthly_installment,
            emis_paid_on_time := 0, start_date := today,
            end_date := end_date, is_active := true }
        let st1 : State :=
          { st with loans := st.loans ++ [loan], next_loan_id := st.next_loan_id + 1 }
        if storageFails then .error .transactionAborted
        else
          let customer' := { customer with current_debt := customer.current_debt + loan_amount }
          let st2 : State :=
            { st1 with customers :=
                st1.customers.map (fun c => if c.id == customer_id then customer' else c) }
          .ok (st2, { loan_id := some loan.id, customer_id := customer_id,
                      loan_approved := true, message := "Loan approved successfully.",
                      monthly_installment := some monthly_installment })
      else
        .ok (st, { loan_id := none, customer_id := customer_id,
                   loan_approved := false,
                   message := get_rejection_message st.today customer loans,
                   monthly_installment := none })

/-- Modelled from the spec: the semantics of Django's
`transaction.atomic` decorator and of the exclusive `select_for_update`
row lock, which are not part of the repository's own sources.  Per spec
sections 4.4, 5 and 7, the decorated body runs as one atomic unit of
work: if it raises, every write it issued is rolled back and the error is
surfaced unmodified, so the caller observes the original state; if it
returns, its writes are committed.  The lock makes concurrent calls for
the same customer run sequentially, each seeing the committed state left
by the previous one, which is why `create_loan` is a pure state
transformer here and two concurrent calls are its sequential composition. -/
def runAtomic (body : State → Except LoanError (State × CreateLoanResult)) (st : State) :
    State × Except LoanError CreateLoanResult :=
  match body st with
  | .ok (st', r) => (st', .ok r)
  | .error e => (st, .error e)

/-- `LoanService.create_loan`: the atomic origination transaction. -/
def create_loan (storageFails : Bool) (st : State)
    (customer_id : ℕ) (loan_amount interest_rate : ℚ) (tenure : ℕ) :
    State × Except LoanError CreateLoanResult :=
  runAtomic (fun s => create_loan_body storageFails s customer_id loan_amount interest_rate tenure) st

end LoanService

/-! ### Evaluation helpers -/

lemma quantize2_of_nonneg (q : ℚ) (k : ℤ) (h0 : 0 ≤ q)
    (h1 : (k : ℚ) ≤ q * 100 + 1/2) (h2 : q * 100 + 1/2 < k + 1) :
    quantize2 q = (k : ℚ) / 100 := by
  have hq : ¬ q < 0 := not_lt.mpr h0
  rw [quantize2, if_neg hq, Int.floor_eq_iff.mpr ⟨h1, h2⟩]

lemma calculate_emi_zero_eval (P : ℚ) (n : ℕ) (k : ℤ) (hP : 0 < P) (hn : 1 ≤ n)
    (h1 : (k : ℚ) ≤ P / (n : ℚ) * 100 + 1/2) (h2 : P / (n : ℚ) * 100 + 1/2 < k + 1) :
    calculate_emi P 0 n = some ((k : ℚ) / 100) := by
  rw [calculate_emi, if_neg (not_le.mpr hP), if_neg (by norm_num),
    if_neg (by omega), if_pos rfl,
    quantize2_of_nonneg _ k (by positivity) h1 h2]

lemma calculate_emi_pos_eval (P r : ℚ) (n : ℕ) (k : ℤ) (hP : 0 < P) (hr : 0 < r) (hn : 1 ≤ n)
    (h0 : 0 ≤ P * (r / 1200) * (1 + r / 1200) ^ n / ((1 + r / 1200) ^ n - 1))
    (h1 : (k : ℚ) ≤ P * (r / 1200) * (1 + r / 1200) ^ n / ((1 + r / 1200) ^ n - 1) * 100 + 1/2)
    (h2 : P * (r / 1200) * (1 + r / 1200) ^ n / ((1 + r / 1200) ^ n - 1) * 100 + 1/2 < k + 1) :
    calculate_emi P r n = some ((k : ℚ) / 100) := by
  rw [calculate_emi, if_neg (not_le.mpr hP), if_neg (not_lt.mpr hr.le),
    if_neg (by omega), if_neg (ne_of_gt hr)]
  exact congrArg some (quantize2_of_nonneg _ k h0 h1 h2)

lemma roundHalfEven_eval (q : ℚ) (f : ℤ) (hl : (f : ℚ) ≤ q) (hu : q < (f : ℚ) + 1) :
    roundHalfEven q =
      if q - f < 1/2 then f
      else if 1/2 < q - f then f + 1
      else if f % 2 = 0 then f else f + 1 := by
  have hf : ⌊q⌋ = f := Int.floor_eq_iff.mpr ⟨hl, by exact_mod_cast hu⟩
  rw [roundHalfEven, hf]

/-- The pre-quantization EMI value: the expression `calculate_emi` rounds. -/
def emiRaw (P rate : ℚ) (n : ℕ) : ℚ :=
  if rate = 0 then P / (n : ℚ)
  else P * (rate / 1200) * (1 + rate / 1200) ^ n / ((1 + rate / 1200) ^ n - 1)

lemma calculate_emi_eq (P rate : ℚ) (n : ℕ) (hP : 0 < P) (hr : 0 ≤ rate) (hn : 1 ≤ n) :
    calculate_emi P rate n = some (quantize2 (emiRaw P rate n)) := by
  rw [calculate_emi, if_neg (not_le.mpr hP), if_neg (not_lt.mpr hr), if_neg (by omega), emiRaw]
  by_cases h : rate = 0
  · rw [if_pos h, if_pos h]
  · rw [if_neg h, if_neg h]

/-- Present value of an `n`-month annuity of 1 at monthly rate `r`:
`∑ (1+r)^-(k+1)`.  Reciprocal of the annuity payment factor. -/
def annuityFactor (r : ℚ) (n : ℕ) : ℚ :=
  ∑ k ∈ Finset.range n, ((1 + r)⁻¹) ^ (k + 1)

lemma annuityFactor_pos {r : ℚ} (hr : 0 < r) {n : ℕ} (hn : 1 ≤ n) :
    0 < annuityFactor r n := by
  apply Finset.sum_pos
  · intro k _
    exact pow_pos (inv_pos.mpr (by linarith)) _
  · exact Finset.nonempty_range_iff.mpr (by omega)

lemma annuityFactor_le {r : ℚ} (hr : 0 < r) (n : ℕ) :
    annuityFactor r n ≤ (n : ℚ) := by
  have h1 : ∀ k ∈ Finset.range n, ((1 + r)⁻¹) ^ (k + 1) ≤ 1 := by
    intro k _
    exact pow_le_one₀ (inv_nonneg.mpr (by linarith)) (inv_le_one_of_one_le₀ (by linarith))
  calc annuityFactor r n ≤ (Finset.range n).card • (1 : ℚ) :=
        Finset.sum_le_card_nsmul _ _ _ h1
    _ = (n : ℚ) := by simp

lemma annuityFactor_anti {r₁ r₂ : ℚ} (h₁ : 0 < r₁) (h₁₂ : r₁ ≤ r₂) (n : ℕ) :
    annuityFactor r₂ n ≤ annuityFactor r₁ n := by
  apply Finset.sum_le_sum
  intro k _
  apply pow_le_pow_left₀ (inv_nonneg.mpr (by linarith))
  exact inv_anti₀ (by linarith) (by linarith)

lemma annuityFactor_identity {r : ℚ} (hr : 0 < r) :
    ∀ n : ℕ, r * (1 + r) ^ n * annuityFactor r n = (1 + r) ^ n - 1 := by
  have hne : (1 + r) ≠ 0 := by positivity
  intro n
  induction n with
  | zero => simp [annuityFactor]
  | succ n ih =>
    have h2 : ((1 + r) : ℚ) ^ (n + 1) * ((1 + r)⁻¹) ^ (n + 1) = 1 := by
      rw [← mul_pow, mul_inv_cancel₀ hne, one_pow]
    have hS : annuityFactor r (n + 1) = annuityFactor r n + ((1 + r)⁻¹) ^ (n + 1) := by
      rw [annuityFactor, annuityFactor, Finset.sum_range_succ]
    calc r * (1 + r) ^ (n + 1) * annuityFactor r (n + 1)
        = (1 + r) * (r * (1 + r) ^ n * annuityFactor r n) +
            r * ((1 + r) ^ (n + 1) * ((1 + r)⁻¹) ^ (n + 1)) := by rw [hS]; ring
      _ = (1 + r) * ((1 + r) ^ n - 1) + r * 1 := by rw [ih, h2]
      _ = (1 + r) ^ (n + 1) - 1 := by ring

lemma emiRaw_pos_eq {P r : ℚ} {n : ℕ} (hr : 0 < r) (hn : 1 ≤ n) :
    P * (r / 1200) * (1 + r / 1200) ^ n / ((1 + r / 1200) ^ n - 1) =
      P / annuityFactor (r / 1200) n := by
  set m := r / 1200 with hm
  have hmp : 0 < m := by positivity
  have hx : 1 < (1 + m) ^ n := one_lt_pow₀ (by linarith) (by omega)
  have hxne : (1 + m) ^ n - 1 ≠ 0 := by linarith
  have hSpos := annuityFactor_pos hmp hn
  have hid := annuityFactor_identity hmp n
  have hkey : (1 + m) ^ n - 1 = m * (1 + m) ^ n * annuityFactor m n := hid.symm
  rw [hkey, div_eq_div_iff (by positivity) hSpos.ne']
  ring

lemma emiRaw_nonneg {P rate : ℚ} {n : ℕ} (hP : 0 < P) (hr : 0 ≤ rate) (hn : 1 ≤ n) :
    0 ≤ emiRaw P rate n := by
  rw [emiRaw]
  rcases eq_or_lt_of_le hr with h0 | hpos
  · rw [if_pos h0.symm]
    positivity
  · rw [if_neg (ne_of_gt hpos), emiRaw_pos_eq hpos hn]
    exact le_of_lt (div_pos hP (annuityFactor_pos (by positivity) hn))

lemma emiRaw_mono {P r₁ r₂ : ℚ} {n : ℕ} (hP : 0 < P) (h₁ : 0 ≤ r₁) (h₁₂ : r₁ ≤ r₂)
    (hn : 1 ≤ n) : emiRaw P r₁ n ≤ emiRaw P r₂ n := by
  rcases eq_or_lt_of_le h₁ with h10 | h1p
  · rcases eq_or_lt_of_le (h10.symm ▸ h₁₂ : (0 : ℚ) ≤ r₂) with h20 | h2p
    · rw [← h10, ← h20]
    · rw [emiRaw, if_pos h10.symm, emiRaw, if_neg (ne_of_gt h2p), emiRaw_pos_eq h2p hn]
      have hm : 0 < r₂ / 1200 := by positivity
      have hS := annuityFactor_pos hm hn
      exact div_le_div_of_nonneg_left hP.le hS (annuityFactor_le hm n)
  · have h2p : 0 < r₂ := lt_of_lt_of_le h1p h₁₂
    rw [emiRaw, if_neg (ne_of_gt h1p), emiRaw, if_neg (ne_of_gt h2p),
      emiRaw_pos_eq h1p hn, emiRaw_pos_eq h2p hn]
    have hm1 : 0 < r₁ / 1200 := by positivity
    have hm12 : r₁ / 1200 ≤ r₂ / 1200 := by linarith
    exact div_le_div_of_nonneg_left hP.le (annuityFactor_pos (by positivity) hn)
      (annuityFactor_anti hm1 hm12 n)

lemma quantize2_nonneg {q : ℚ} (h0 : 0 ≤ q) : 0 ≤ quantize2 q := by
  rw [quantize2, if_neg (not_lt.mpr h0)]
  have : (0 : ℤ) ≤ ⌊q * 100 + 1/2⌋ := Int.le_floor.mpr (by push_cast; linarith)
  positivity

lemma quantize2_mono {a b : ℚ} (h0 : 0 ≤ a) (hab : a ≤ b) :
    quantize2 a ≤ quantize2 b := by
  rw [quantize2, if_neg (not_lt.mpr h0), quantize2, if_neg (not_lt.mpr (h0.trans hab))]
  have h := Int.floor_mono (show a * 100 + 1/2 ≤ b * 100 + 1/2 by linarith)
  have h' : ((⌊a * 100 + 1/2⌋ : ℤ) : ℚ) ≤ ((⌊b * 100 + 1/2⌋ : ℤ) : ℚ) := by exact_mod_cast h
  linarith

lemma quantize2_quantized (q : ℚ) : ∃ k : ℤ, quantize2 q = (k : ℤ) / 100 := by
  rw [quantize2]
  by_cases h : q < 0
  · exact ⟨-⌊-q * 100 + 1/2⌋, by rw [if_pos h]; push_cast; ring⟩
  · exact ⟨⌊q * 100 + 1/2⌋, by rw [if_neg h]⟩

lemma slabDecision_snd_nonneg (s : ℤ) {rate : ℚ} (hr : 0 ≤ rate) :
    0 ≤ (EligibilityService.slabDecision s rate).2 := by
  rw [EligibilityService.slabDecision]
  split_ifs <;> first | exact hr | norm_num

lemma slabDecision_snd_ge (s : ℤ) (rate : ℚ) :
    rate ≤ (EligibilityService.slabDecision s rate).2 := by
  rw [EligibilityService.slabDecision]
  split_ifs with h1 h2 h3 h4 h5 <;> simp <;> linarith

lemma check_eval_overlimit {today : Date} {cust : Customer} {loans : List Loan}
    {amount rate : ℚ} {n : ℕ} (hP : 0 < amount) (hr : 0 ≤ rate) (hn : 1 ≤ n)
    (hgt : (cust.approved_limit : ℚ) < amount) :
    EligibilityService.check today cust loans amount rate n =
      some ⟨cust.id, false, rate, rate, n, quantize2 (emiRaw amount rate n)⟩ := by
  rw [EligibilityService.check, if_pos hgt, calculate_emi_eq _ _ _ hP hr hn, Option.map_some']

lemma check_eval_busy {today : Date} {cust : Customer} {loans : List Loan}
    {amount rate : ℚ} {n : ℕ} (hP : 0 < amount) (hr : 0 ≤ rate) (hn : 1 ≤ n)
    (hle : amount ≤ (cust.approved_limit : ℚ))
    (hbusy : (cust.monthly_salary : ℚ) * (1/2) ≤ currentEmiTotal loans) :
    EligibilityService.check today cust loans amount rate n =
      some ⟨cust.id, false, rate, rate, n, quantize2 (emiRaw amount rate n)⟩ := by
  rw [EligibilityService.check, if_neg (not_lt.mpr hle), calculate_emi_eq _ _ _ hP hr hn,
    Option.some_bind, if_pos hbusy]

lemma check_eval_slab {today : Date} {cust : Customer} {loans : List Loan}
    {amount rate : ℚ} {n : ℕ} (hP : 0 < amount) (hr : 0 ≤ rate) (hn : 1 ≤ n)
    (hle : amount ≤ (cust.approved_limit : ℚ))
    (hcur : currentEmiTotal loans < (cust.monthly_salary : ℚ) * (1/2)) :
    EligibilityService.check today cust loans amount rate n =
      some ⟨cust.id,
        (EligibilityService.slabDecision (CreditScoreService.calculate today cust loans) rate).1 &&
          !((cust.monthly_salary : ℚ) * (1/2) < currentEmiTotal loans +
            quantize2 (emiRaw amount
              (EligibilityService.slabDecision (CreditScoreService.calculate today cust loans) rate).2 n)),
        rate,
        (EligibilityService.slabDecision (CreditScoreService.calculate today cust loans) rate).2,
        n,
        quantize2 (emiRaw amount
          (EligibilityService.slabDecision (CreditScoreService.calculate today cust loans) rate).2 n)⟩ := by
  rw [EligibilityService.check]
  dsimp only
  rw [if_neg (not_lt.mpr hle), calculate_emi_eq _ _ _ hP hr hn,
    Option.some_bind, if_neg (not_le.mpr hcur),
    calculate_emi_eq _ _ _ hP (slabDecision_snd_nonneg _ hr) hn, Option.map_some']

lemma check_approval_bound {today : Date} {cust : Customer} {loans : List Loan}
    {amount rate : ℚ} {n : ℕ} {resp : EligibilityResponse}
    (h : EligibilityService.check today cust loans amount rate n = some resp)
    (ha : resp.approval = true) :
    currentEmiTotal loans + resp.monthly_installment ≤ (cust.monthly_salary : ℚ) * (1/2) := by
  rw [EligibilityService.check] at h
  dsimp only at h
  split_ifs at h with h1 h2
  · rcases Option.map_eq_some'.mp h with ⟨e, _, hresp⟩
    rw [← hresp] at ha
    simp at ha
  · cases hemi : calculate_emi amount rate n with
    | none => rw [hemi] at h; simp at h
    | some e =>
      rw [hemi, Option.some_bind, Option.some.injEq] at h
      rw [← h] at ha
      simp at ha
  · cases hemi : calculate_emi amount rate n with
    | none => rw [hemi] at h; simp at h
    | some e =>
      rw [hemi, Option.some_bind] at h
      cases hemi2 : calculate_emi amount
          (EligibilityService.slabDecision (CreditScoreService.calculate today cust loans) rate).2 n with
      | none => rw [hemi2] at h; simp at h
      | some fe =>
        rw [hemi2, Option.map_some', Option.some.injEq] at h
        rw [← h] at ha
        simp only [Bool.and_eq_true, Bool.not_eq_true', decide_eq_false_iff_not, not_lt] at ha
        rw [← h]
        exact ha.2

lemma find?_map_update (l : List Customer) (cid : ℕ) (c c' : Customer)
    (hfind : l.find? (·.id == cid) = some c) (hid : c'.id = c.id) :
    (l.map (fun c0 => if c0.id == cid then c' else c0)).find? (·.id == cid) = some c' := by
  induction l with
  | nil => simp at hfind
  | cons a l ih =>
    by_cases hb : (a.id == cid) = true
    · have hac : a = c := by simp_all
      have hcid : (c'.id == cid) = true := by
        rw [hid, ← hac]
        exact hb
      simp only [List.map_cons]
      rw [if_pos hb, List.find?_cons]
      simp [hcid]
    · rw [List.find?_cons] at hfind
      simp only [List.map_cons]
      rw [if_neg hb, List.find?_cons]
      have hb' : (a.id == cid) = false := by simpa using hb
      rw [hb'] at hfind ⊢
      exact ih hfind

lemma find?_eq_some_id {l : List Customer} {cid : ℕ} {c : Customer}
    (hfind : l.find? (·.id == cid) = some c) : c.id = cid := by
  have := List.find?_some hfind
  simpa using this

/-- The state produced by a successful origination (used to state the
`create_loan` lemmas once). -/
def approvedState (st : State) (cid : ℕ) (amount : ℚ) (n : ℕ)
    (customer : Customer) (elig : EligibilityResponse) : State :=
  { customers := st.customers.map
      (fun c => if c.id == cid then
        { customer with current_debt := customer.current_debt + amount } else c),
    loans := st.loans ++
      [{ id := st.next_loan_id, customer_id := cid, loan_amount := amount, tenure := n,
         interest_rate := elig.corrected_interest_rate,
         monthly_installment := elig.monthly_installment,
         emis_paid_on_time := 0, start_date := st.today,
         end_date := addMonths st.today n, is_active := true }],
    next_loan_id := st.next_loan_id + 1, today := st.today }

/-- The result dict of a successful origination. -/
def approvedResult (st : State) (cid : ℕ) (elig : EligibilityResponse) : CreateLoanResult :=
  { loan_id := some st.next_loan_id, customer_id := cid, loan_approved := true,
    message := "Loan approved successfully.",
    monthly_installment := some elig.monthly_installment }

/-- The result dict of a rejected origination. -/
def rejectedResult (st : State) (cid : ℕ) (customer : Customer) : CreateLoanResult :=
  { loan_id := none, customer_id := cid, loan_approved := false,
    message := LoanService.get_rejection_message st.today customer (st.loansOf cid),
    monthly_installment := none }

lemma create_loan_approved_eq {st : State} {cid : ℕ} {amount rate : ℚ} {n : ℕ}
    {customer : Customer} {elig : EligibilityResponse}
    (hfind : st.customers.find? (·.id == cid) = some customer)
    (hcheck : EligibilityService.check st.today customer (st.loansOf cid) amount rate n = some elig)
    (happ : elig.approval = true) :
    LoanService.create_loan false st cid amount rate n =
      (approvedState st cid amount n customer elig, .ok (approvedResult st cid elig)) := by
  rw [LoanService.create_loan, LoanService.runAtomic]
  have hbody : LoanService.create_loan_body false st cid amount rate n =
      .ok (approvedState st cid amount n customer elig, approvedResult st cid elig) := by
    rw [LoanService.create_loan_body, hfind]
    dsimp only
    rw [hcheck]
    dsimp only
    rw [if_pos happ]
    rfl
  rw [hbody]

lemma create_loan_rejected_eq {fail : Bool} {st : State} {cid : ℕ} {amount rate : ℚ} {n : ℕ}
    {customer : Customer} {elig : EligibilityResponse}
    (hfind : st.customers.find? (·.id == cid) = some customer)
    (hcheck : EligibilityService.check st.today customer (st.loansOf cid) amount rate n = some elig)
    (hrej : elig.approval = false) :
    LoanService.create_loan fail st cid amount rate n =
      (st, .ok (rejectedResult st cid customer)) := by
  rw [LoanService.create_loan, LoanService.runAtomic]
  have hbody : LoanService.create_loan_body fail st cid amount rate n =
      .ok (st, rejectedResult st cid customer) := by
    rw [LoanService.create_loan_body, hfind]
    dsimp only
    rw [hcheck]
    dsimp only
    rw [if_neg (by rw [hrej]; exact Bool.false_ne_true)]
    rfl
  rw [hbody]

lemma create_loan_aborted_eq {st : State} {cid : ℕ} {amount rate : ℚ} {n : ℕ}
    {customer : Customer} {elig : EligibilityResponse}
    (hfind : st.customers.find? (·.id == cid) = some customer)
    (hcheck : EligibilityService.check st.today customer (st.loansOf cid) amount rate n = some elig)
    (happ : elig.approval = true) :
    LoanService.create_loan true st cid amount rate n = (st, .error .transactionAborted) := by
  rw [LoanService.create_loan, LoanService.runAtomic]
  have hbody : LoanService.create_loan_body true st cid amount rate n =
      .error .transactionAborted := by
    rw [LoanService.create_loan_body, hfind]
    dsimp only
    rw [hcheck]
    dsimp only
    rw [if_pos happ]
    rfl
  rw [hbody]

lemma create_loan_ok_body {fail : Bool} {st : State} {cid : ℕ} {amount rate : ℚ} {n : ℕ}
    {st' : State} {res : CreateLoanResult}
    (h : LoanService.create_loan fail st cid amount rate n = (st', .ok res)) :
    LoanService.create_loan_body fail st cid amount rate n = .ok (st', res) := by
  rw [LoanService.create_loan, LoanService.runAtomic] at h
  cases hb : LoanService.create_loan_body fail st cid amount rate n with
  | ok p =>
    obtain ⟨p1, p2⟩ := p
    rw [hb] at h
    dsimp only at h
    rw [Prod.mk.injEq, Except.ok.injEq] at h
    rw [h.1, h.2]
  | error e =>
    rw [hb] at h
    dsimp only at h
    rw [Prod.mk.injEq] at h
    exact absurd h.2 (by simp)

lemma create_loan_body_ok_inv {fail : Bool} {st : State} {cid : ℕ} {amount rate : ℚ} {n : ℕ}
    {st' : State} {res : CreateLoanResult}
    (h : LoanService.create_loan_body fail st cid amount rate n = .ok (st', res)) :
    ∃ customer, st.customers.find? (·.id == cid) = some customer ∧
    ∃ elig, EligibilityService.check st.today customer (st.loansOf cid) amount rate n = some elig ∧
      ((elig.approval = true ∧ fail = false ∧
          res = approvedResult st cid elig ∧
          st' = approvedState st cid amount n customer elig) ∨
        (elig.approval = false ∧ res = rejectedResult st cid customer ∧ st' = st)) := by
  rw [LoanService.create_loan_body] at h
  cases hfind : st.customers.find? (·.id == cid) with
  | none =>
    rw [hfind] at h
    exact absurd h (by simp)
  | some customer =>
    rw [hfind] at h
    dsimp only at h
    cases hcheck : EligibilityService.check st.today customer (st.loansOf cid) amount rate n with
    | none =>
      rw [hcheck] at h
      exact absurd h (by simp)
    | some elig =>
      rw [hcheck] at h
      try dsimp only at h
      refine ⟨customer, rfl, elig, hcheck, ?_⟩
      by_cases happ : elig.approval = true
      · rw [if_pos happ] at h
        cases fail with
        | false =>
          rw [if_neg Bool.false_ne_true] at h
          rw [Except.ok.injEq, Prod.mk.injEq] at h
          exact Or.inl ⟨happ, rfl, h.2.symm, h.1.symm⟩
        | true => exact absurd h (by simp)
      · rw [if_neg happ] at h
        rw [Except.ok.injEq, Prod.mk.injEq] at h
        exact Or.inr ⟨by simpa using happ, h.2.symm, h.1.symm⟩

lemma runAtomic_error_state (body : State → Except LoanError (State × CreateLoanResult))
    (st : State) (e : LoanError) (h : (LoanService.runAtomic body st).2 = .error e) :
    (LoanService.runAtomic body st).1 = st := by
  rw [LoanService.runAtomic] at *
  cases hb : body st with
  | ok p =>
    obtain ⟨p1, p2⟩ := p
    rw [hb] at h
    dsimp only at h
    exact absurd h (by simp)
  | error e' => rfl

/-! ### Claim theorems -/

/-- C3: for every principal `P > 0` and tenure `n ≥ 1`, `calculate_emi`
returns `P / n` rounded half-up to 2 places at rate 0, and
`P·r·(1+r)^n / ((1+r)^n − 1)` with `r = rate/1200` rounded half-up to 2
places at a positive rate, in exact arithmetic; in particular
`calculate_emi 500000 15 24 = 24243.32`. -/
theorem C3_emi_formula (P : ℚ) (n : ℕ) (hP : 0 < P) (hn : 1 ≤ n) :
    calculate_emi P 0 n = some (quantize2 (P / (n : ℚ))) ∧
    (∀ rate : ℚ, 0 < rate →
      calculate_emi P rate n =
        some (quantize2 (P * (rate / 1200) * (1 + rate / 1200) ^ n /
          ((1 + rate / 1200) ^ n - 1)))) ∧
    calculate_emi 500000 15 24 = some (2424332 / 100) := by
  refine ⟨?_, ?_, ?_⟩
  · rw [calculate_emi_eq P 0 n hP le_rfl hn, emiRaw, if_pos rfl]
  · intro rate hrate
    rw [calculate_emi_eq P rate n hP hrate.le hn, emiRaw, if_neg (ne_of_gt hrate)]
  · have h := calculate_emi_pos_eval 500000 15 24 2424332 (by norm_num) (by norm_num)
      (by norm_num) (by positivity) (by norm_num) (by norm_num)
    simpa using h

/-- Witness for C3 at `P = 500000`, `n = 24`. -/
theorem C3_emi_formula_witness :
    (0 : ℚ) < 500000 ∧ (1 : ℕ) ≤ 24 ∧ calculate_emi 500000 15 24 = some (2424332 / 100) :=
  ⟨by norm_num, by norm_num, (C3_emi_formula 500000 24 (by norm_num) (by norm_num)).2.2⟩

/-- C9 counterexample: at principal `0.001`, rate 0, tenure 1 the code
returns `0.00`, which is not strictly positive, so "every compute_emi
output is strictly positive" fails. -/
theorem C9_counterexample :
    calculate_emi (1/1000) 0 1 = some 0 ∧
    ¬ (∀ q : ℚ, calculate_emi (1/1000) 0 1 = some q → 0 < q) := by
  have h : calculate_emi (1/1000) 0 1 = some (((0 : ℤ) : ℚ) / 100) :=
    calculate_emi_zero_eval (1/1000) 1 0 (by norm_num) le_rfl (by norm_num) (by norm_num)
  have h0 : calculate_emi (1/1000) 0 1 = some 0 := by simpa using h
  refine ⟨h0, fun hall => ?_⟩
  exact lt_irrefl 0 (hall 0 h0)

/-- C9 amended: for positive principal, nonnegative rate and tenure ≥ 1,
`calculate_emi` succeeds, its output is nonnegative (not always strictly
positive) and quantized to exactly 2 decimal places, and it is
monotonically non-decreasing in the rate for fixed principal and tenure. -/
theorem C9_emi_monotone (P r₁ r₂ : ℚ) (n : ℕ) (hP : 0 < P) (h₁ : 0 ≤ r₁)
    (h₁₂ : r₁ ≤ r₂) (hn : 1 ≤ n) :
    (∀ rate : ℚ, 0 ≤ rate →
      ∃ q : ℚ, calculate_emi P rate n = some q ∧ 0 ≤ q ∧ ∃ k : ℤ, q = (k : ℚ) / 100) ∧
    (∀ q₁ q₂ : ℚ, calculate_emi P r₁ n = some q₁ → calculate_emi P r₂ n = some q₂ →
      q₁ ≤ q₂) := by
  constructor
  · intro rate hr
    exact ⟨quantize2 (emiRaw P rate n), calculate_emi_eq P rate n hP hr hn,
      quantize2_nonneg (emiRaw_nonneg hP hr hn), quantize2_quantized _⟩
  · intro q₁ q₂ hq₁ hq₂
    rw [calculate_emi_eq P r₁ n hP h₁ hn, Option.some.injEq] at hq₁
    rw [calculate_emi_eq P r₂ n hP (h₁.trans h₁₂) hn, Option.some.injEq] at hq₂
    rw [← hq₁, ← hq₂]
    exact quantize2_mono (emiRaw_nonneg hP h₁ hn) (emiRaw_mono hP h₁ h₁₂ hn)

/-- Witness for the amended C9 at `P = 100000`, rates 10 ≤ 12, `n = 12`. -/
theorem C9_emi_monotone_witness :
    calculate_emi 100000 10 12 = some (879159 / 100) ∧
    calculate_emi 100000 12 12 = some (888488 / 100) ∧
    (879159 / 100 : ℚ) ≤ 888488 / 100 := by
  have h1 : calculate_emi 100000 10 12 = some (879159 / 100) := by
    have h := calculate_emi_pos_eval 100000 10 12 879159 (by norm_num) (by norm_num)
      (by norm_num) (by positivity) (by norm_num) (by norm_num)
    simpa using h
  have h2 : calculate_emi 100000 12 12 = some (888488 / 100) := by
    have h := calculate_emi_pos_eval 100000 12 12 888488 (by norm_num) (by norm_num)
      (by norm_num) (by positivity) (by norm_num) (by norm_num)
    simpa using h
  exact ⟨h1, h2,
    (C9_emi_monotone 100000 10 12 12 (by norm_num) (by norm_num) (by norm_num)
      (by norm_num)).2 _ _ h1 h2⟩

/-- C10: on every input on which the eligibility check returns, the
result's `corrected_interest_rate` is at least the requested
`interest_rate` (and the requested rate is echoed unchanged); the
correction only ever raises the rate. -/
theorem C10_corrected_rate_ge (today : Date) (cust : Customer) (loans : List Loan)
    (amount rate : ℚ) (n : ℕ) (resp : EligibilityResponse)
    (h : EligibilityService.check today cust loans amount rate n = some resp) :
    resp.interest_rate = rate ∧ rate ≤ resp.corrected_interest_rate := by
  rw [EligibilityService.check] at h
  dsimp only at h
  split_ifs at h with h1 h2
  · rcases Option.map_eq_some'.mp h with ⟨e, _, hresp⟩
    rw [← hresp]
    exact ⟨rfl, le_rfl⟩
  · cases hemi : calculate_emi amount rate n with
    | none => rw [hemi] at h; simp at h
    | some e =>
      rw [hemi, Option.some_bind, Option.some.injEq] at h
      rw [← h]
      exact ⟨rfl, le_rfl⟩
  · cases hemi : calculate_emi amount rate n with
    | none => rw [hemi] at h; simp at h
    | some e =>
      rw [hemi, Option.some_bind] at h
      cases hemi2 : calculate_emi amount
          (EligibilityService.slabDecision (CreditScoreService.calculate today cust loans) rate).2 n with
      | none => rw [hemi2] at h; simp at h
      | some fe =>
        rw [hemi2, Option.map_some', Option.some.injEq] at h
        rw [← h]
        exact ⟨rfl, slabDecision_snd_ge _ _⟩

lemma emi_100000_12_12 : calculate_emi 100000 12 12 = some (888488 / 100) := by
  have h := calculate_emi_pos_eval 100000 12 12 888488 (by norm_num) (by norm_num)
    (by norm_num) (by positivity) (by norm_num) (by norm_num)
  simpa using h

lemma quantize2_emiRaw_eq {P rate : ℚ} {n : ℕ} {e : ℚ} (hP : 0 < P) (hr : 0 ≤ rate)
    (hn : 1 ≤ n) (h : calculate_emi P rate n = some e) : quantize2 (emiRaw P rate n) = e := by
  have h2 := (calculate_emi_eq P rate n hP hr hn).symm.trans h
  exact Option.some.injEq .. ▸ h2

lemma check_S1 :
    EligibilityService.check ⟨2026, 10, 12⟩ ⟨1, 100000, 3600000, 0⟩ [] 100000 10 12 =
      some ⟨1, true, 10, 12, 12, 888488 / 100⟩ := by
  have hs : CreditScoreService.calculate ⟨2026, 10, 12⟩ ⟨1, 100000, 3600000, 0⟩ [] = 50 := rfl
  have hslab : EligibilityService.slabDecision 50 10 = (true, 12) := by
    norm_num [EligibilityService.slabDecision]
  have hcur : currentEmiTotal [] = (0 : ℚ) := rfl
  rw [check_eval_slab (by norm_num) (by norm_num) (by norm_num)
    (by norm_num) (by rw [hcur]; norm_num)]
  rw [hs, hslab]
  have hq : quantize2 (emiRaw 100000 ((true, (12 : ℚ)).2) 12) = 888488 / 100 :=
    quantize2_emiRaw_eq (by norm_num) (by norm_num) (by norm_num) emi_100000_12_12
  rw [hq, hcur]
  simp only [Option.some.injEq, EligibilityResponse.mk.injEq]
  norm_num

/-- C1: whenever the eligibility check reaches the slab step (requested
amount within `approved_limit`, current EMIs below the affordability
ceiling) with credit score `s`: `s > 50` approves with the requested
rate; `30 < s ≤ 50` approves, correcting the rate to 12.00 exactly when
the requested rate is ≤ 12; `10 < s ≤ 30` approves, correcting to 16.00
exactly when the requested rate is ≤ 16; `s ≤ 10` rejects with the rate
unchanged — and the response's corrected rate is the slab's output. -/
theorem C1_slab_policy (today : Date) (cust : Customer) (loans : List Loan)
    (amount rate : ℚ) (n : ℕ) (s : ℤ)
    (hP : 0 < amount) (hr : 0 ≤ rate) (hn : 1 ≤ n)
    (hlim : amount ≤ (cust.approved_limit : ℚ))
    (hcur : currentEmiTotal loans < (cust.monthly_salary : ℚ) * (1/2))
    (hs : s = CreditScoreService.calculate today cust loans) :
    ∃ resp, EligibilityService.check today cust loans amount rate n = some resp ∧
      resp.corrected_interest_rate = (EligibilityService.slabDecision s rate).2 ∧
      (50 < s → EligibilityService.slabDecision s rate = (true, rate)) ∧
      (30 < s → s ≤ 50 →
        EligibilityService.slabDecision s rate = (true, if rate ≤ 12 then 12 else rate)) ∧
      (10 < s → s ≤ 30 →
        EligibilityService.slabDecision s rate = (true, if rate ≤ 16 then 16 else rate)) ∧
      (s ≤ 10 → EligibilityService.slabDecision s rate = (false, rate) ∧
        resp.approval = false) := by
  subst hs
  refine ⟨_, check_eval_slab hP hr hn hlim hcur, rfl, ?_, ?_, ?_, ?_⟩
  · intro h50
    rw [EligibilityService.slabDecision, if_pos h50]
  · intro h30 h50
    rw [EligibilityService.slabDecision, if_neg (by omega), if_pos ⟨h30, h50⟩]
    rcases le_or_lt rate 12 with hle | hlt
    · rw [if_neg (not_lt.mpr hle), if_pos hle]
    · rw [if_pos hlt, if_neg (not_le.mpr hlt)]
  · intro h10 h30
    rw [EligibilityService.slabDecision, if_neg (by omega), if_neg (by omega),
      if_pos ⟨h10, h30⟩]
    rcases le_or_lt rate 16 with hle | hlt
    · rw [if_neg (not_lt.mpr hle), if_pos hle]
    · rw [if_pos hlt, if_neg (not_le.mpr hlt)]
  · intro h10
    have hsd : EligibilityService.slabDecision
        (CreditScoreService.calculate today cust loans) rate = (false, rate) := by
      rw [EligibilityService.slabDecision, if_neg (by omega), if_neg (by omega),
        if_neg (by omega)]
    refine ⟨hsd, ?_⟩
    dsimp only
    rw [hsd]
    rfl

/-- Witness for C1: a no-history customer (score 50) requesting rate 10
lands in the middle slab and the rate is corrected to 12.00. -/
theorem C1_slab_policy_witness :
    EligibilityService.slabDecision 50 10 = (true, 12) ∧
    ∃ resp, EligibilityService.check ⟨2026, 10, 12⟩ ⟨1, 100000, 3600000, 0⟩ [] 100000 10 12 =
      some resp ∧ resp.corrected_interest_rate = 12 := by
  have h := C1_slab_policy ⟨2026, 10, 12⟩ ⟨1, 100000, 3600000, 0⟩ [] 100000 10 12 50
    (by norm_num) (by norm_num) (by norm_num) (by norm_num)
    (by norm_num [currentEmiTotal]) rfl
  obtain ⟨resp, hc, hcorr, _, hmid, _, _⟩ := h
  have hsd := hmid (by norm_num) (by norm_num)
  rw [if_pos (by norm_num : (10 : ℚ) ≤ 12)] at hsd
  exact ⟨hsd, resp, hc, by rw [hcorr, hsd]⟩

/-- C2: with the amount within `approved_limit`, the check rejects with
the requested-rate EMI whenever active EMIs already reach half the
salary; and when the slab approves but the corrected-rate EMI would push
the total strictly over half the salary, the decision is flipped to
rejected while the corrected-rate EMI is still returned. -/
theorem C2_emi_ceiling (today : Date) (cust : Customer) (loans : List Loan)
    (amount rate : ℚ) (n : ℕ)
    (hP : 0 < amount) (hr : 0 ≤ rate) (hn : 1 ≤ n) :
    ((cust.monthly_salary : ℚ) * (1/2) ≤ currentEmiTotal loans →
      ∃ e, calculate_emi amount rate n = some e ∧
        EligibilityService.check today cust loans amount rate n =
          some ⟨cust.id, false, rate, rate, n, e⟩) ∧
    (amount ≤ (cust.approved_limit : ℚ) →
      currentEmiTotal loans < (cust.monthly_salary : ℚ) * (1/2) →
      (EligibilityService.slabDecision (CreditScoreService.calculate today cust loans) rate).1 =
        true →
      ∀ fe, calculate_emi amount
          (EligibilityService.slabDecision (CreditScoreService.calculate today cust loans) rate).2
          n = some fe →
        (cust.monthly_salary : ℚ) * (1/2) < currentEmiTotal loans + fe →
        EligibilityService.check today cust loans amount rate n =
          some ⟨cust.id, false, rate,
            (EligibilityService.slabDecision (CreditScoreService.calculate today cust loans) rate).2,
            n, fe⟩) := by
  constructor
  · intro hbusy
    refine ⟨quantize2 (emiRaw amount rate n), calculate_emi_eq amount rate n hP hr hn, ?_⟩
    rcases lt_or_le (cust.approved_limit : ℚ) amount with hgt | hle
    · exact check_eval_overlimit hP hr hn hgt
    · exact check_eval_busy hP hr hn hle hbusy
  · intro hlim hcur hslab fe hfe hbreach
    rw [check_eval_slab hP hr hn hlim hcur,
      quantize2_emiRaw_eq hP (slabDecision_snd_nonneg _ hr) hn hfe]
    rw [Option.some.injEq, EligibilityResponse.mk.injEq]
    refine ⟨rfl, ?_, rfl, rfl, rfl, rfl⟩
    rw [hslab, decide_eq_true hbreach]
    rfl

lemma emi_100000_10_12 : calculate_emi 100000 10 12 = some (879159 / 100) := by
  have h := calculate_emi_pos_eval 100000 10 12 879159 (by norm_num) (by norm_num)
    (by norm_num) (by positivity) (by norm_num) (by norm_num)
  simpa using h

lemma emi_800000_12_12 : calculate_emi 800000 12 12 = some (7107903 / 100) := by
  have h := calculate_emi_pos_eval 800000 12 12 7107903 (by norm_num) (by norm_num)
    (by norm_num) (by positivity) (by norm_num) (by norm_num)
  simpa using h

/-- Witness for C2: a customer with 60000 of active EMIs against salary
100000 is rejected at the requested rate; a customer with salary 25000
requesting 800000 passes the slab (score 50, rate corrected to 12) but
the corrected-rate EMI 71079.03 breaches 12500, so the decision flips to
rejected while the 71079.03 EMI is returned. -/
theorem C2_emi_ceiling_witness :
    EligibilityService.check ⟨2026, 10, 12⟩ ⟨1, 100000, 3600000, 0⟩
      [⟨1, 1, 500000, 10, 10, 60000, 0, ⟨2020, 1, 1⟩, ⟨2020, 11, 1⟩, true⟩] 100000 10 12 =
      some ⟨1, false, 10, 10, 12, 879159 / 100⟩ ∧
    EligibilityService.check ⟨2026, 10, 12⟩ ⟨1, 25000, 900000, 0⟩ [] 800000 10 12 =
      some ⟨1, false, 10, 12, 12, 7107903 / 100⟩ := by
  constructor
  · have h := (C2_emi_ceiling ⟨2026, 10, 12⟩ ⟨1, 100000, 3600000, 0⟩
      [⟨1, 1, 500000, 10, 10, 60000, 0, ⟨2020, 1, 1⟩, ⟨2020, 11, 1⟩, true⟩] 100000 10 12
      (by norm_num) (by norm_num) (by norm_num)).1
      (by norm_num [currentEmiTotal])
    obtain ⟨e, he, hcheck⟩ := h
    have he' : (879159 / 100 : ℚ) = e := by
      have := emi_100000_10_12.symm.trans he
      exact (Option.some.injEq _ _).mp this
    rw [he']
    exact hcheck
  · have hs : CreditScoreService.calculate ⟨2026, 10, 12⟩ ⟨1, 25000, 900000, 0⟩ [] = 50 := rfl
    have hslab : EligibilityService.slabDecision 50 10 = (true, 12) := by
      norm_num [EligibilityService.slabDecision]
    have h := (C2_emi_ceiling ⟨2026, 10, 12⟩ ⟨1, 25000, 900000, 0⟩ [] 800000 10 12
      (by norm_num) (by norm_num) (by norm_num)).2 (by norm_num)
      (by norm_num [currentEmiTotal]) (by rw [hs, hslab]) (7107903 / 100)
      (by rw [hs, hslab]; exact emi_800000_12_12)
      (by norm_num [currentEmiTotal])
    rw [hs, hslab] at h
    exact h

/-- C7 counterexample: for a single active loan of tenure 4 with 1 EMI
paid on time (on-time sub-score 7.5), started in an earlier year
(activity 20), count 1 (20), volume ratio 0.3 (21), the exact sub-score
sum is 68.5.  The source's Python `round` (half-to-even, and the float
computation is exact on this input) gives 68, while the claimed
round-half-up would give 69. -/
theorem C7_counterexample :
    CreditScoreService.calculate ⟨2026, 10, 12⟩ ⟨1, 27778, 1000000, 0⟩
      [⟨1, 1, 300000, 4, 10, 100, 1, ⟨2020, 1, 1⟩, ⟨2020, 5, 1⟩, true⟩] = 68 ∧
    CreditScoreService.calculateSpecHalfUp ⟨2026, 10, 12⟩ ⟨1, 27778, 1000000, 0⟩
      [⟨1, 1, 300000, 4, 10, 100, 1, ⟨2020, 1, 1⟩, ⟨2020, 5, 1⟩, true⟩] = 69 ∧
    (68 : ℤ) ≠ 69 := by
  have hA : CreditScoreService.scoreOnTime
      [⟨1, 1, 300000, 4, 10, 100, 1, ⟨2020, 1, 1⟩, ⟨2020, 5, 1⟩, true⟩] = 15/2 := by
    norm_num [CreditScoreService.scoreOnTime]
  have hB : CreditScoreService.scoreNumLoans
      [⟨1, 1, 300000, 4, 10, 100, 1, ⟨2020, 1, 1⟩, ⟨2020, 5, 1⟩, true⟩] = 20 := by
    norm_num [CreditScoreService.scoreNumLoans]
  have hC : CreditScoreService.scoreActivity ⟨2026, 10, 12⟩
      [⟨1, 1, 300000, 4, 10, 100, 1, ⟨2020, 1, 1⟩, ⟨2020, 5, 1⟩, true⟩] = 20 := by
    norm_num [CreditScoreService.scoreActivity]
  have hD : CreditScoreService.scoreVolume ⟨1, 27778, 1000000, 0⟩
      [⟨1, 1, 300000, 4, 10, 100, 1, ⟨2020, 1, 1⟩, ⟨2020, 5, 1⟩, true⟩] = 21 := by
    norm_num [CreditScoreService.scoreVolume]
  refine ⟨?_, ?_, by norm_num⟩
  · rw [CreditScoreService.calculate]
    simp only [hA, hB, hC, hD, List.isEmpty_cons, List.filter_cons_of_pos, List.filter_nil,
      List.map_cons, List.map_nil, List.sum_cons, List.sum_nil]
    rw [if_neg (by norm_num), if_neg (by norm_num)]
    rw [show (15/2 + 20 + 20 + 21 : ℚ) = 137/2 by norm_num,
      roundHalfEven_eval (137/2) 68 (by norm_num) (by norm_num)]
    norm_num
  · rw [CreditScoreService.calculateSpecHalfUp]
    simp only [hA, hB, hC, hD, List.isEmpty_cons, List.filter_cons_of_pos, List.filter_nil,
      List.map_cons, List.map_nil, List.sum_cons, List.sum_nil]
    rw [if_neg (by norm_num), if_neg (by norm_num)]
    rw [show (15/2 + 20 + 20 + 21 : ℚ) = 137/2 by norm_num, round_eq,
      show (137/2 + 1/2 : ℚ) = ((69 : ℤ) : ℚ) by norm_num, Int.floor_intCast]
    norm_num

/-- C7 amended: on non-empty history within the approved limit, the score
is the four weighted sub-scores summed, rounded with Python's `round`
(half-to-even, not half-up), then clamped to `[0, 100]`; and the score is
in `[0, 100]` for every input. -/
theorem C7_score_rounding (today : Date) (customer : Customer) (loans : List Loan) :
    (loans.isEmpty = false →
      ((loans.filter (·.is_active)).map (·.loan_amount)).sum ≤ (customer.approved_limit : ℚ) →
      CreditScoreService.calculate today customer loans =
        max 0 (min 100 (roundHalfEven
          (CreditScoreService.scoreOnTime loans + CreditScoreService.scoreNumLoans loans +
            CreditScoreService.scoreActivity today loans +
            CreditScoreService.scoreVolume customer loans)))) ∧
    0 ≤ CreditScoreService.calculate today customer loans ∧
    CreditScoreService.calculate today customer loans ≤ 100 := by
  refine ⟨?_, ?_⟩
  · intro hne hle
    rw [CreditScoreService.calculate, hne]
    rw [if_neg (by exact Bool.false_ne_true), if_neg (not_lt.mpr hle)]
  · rw [CreditScoreService.calculate]
    dsimp only
    split_ifs with h1 h2
    · exact ⟨by norm_num, by norm_num⟩
    · exact ⟨le_rfl, by norm_num⟩
    · exact ⟨le_max_left 0 _, max_le (by norm_num) (min_le_left 100 _)⟩

/-- Witness for the amended C7 at the concrete tie input (sum 68.5,
score 68, inside `[0, 100]`). -/
theorem C7_score_rounding_witness :
    CreditScoreService.calculate ⟨2026, 10, 12⟩ ⟨1, 27778, 1000000, 0⟩
      [⟨1, 1, 300000, 4, 10, 100, 1, ⟨2020, 1, 1⟩, ⟨2020, 5, 1⟩, true⟩] =
      max 0 (min 100 (roundHalfEven
        (CreditScoreService.scoreOnTime
            [⟨1, 1, 300000, 4, 10, 100, 1, ⟨2020, 1, 1⟩, ⟨2020, 5, 1⟩, true⟩] +
          CreditScoreService.scoreNumLoans
            [⟨1, 1, 300000, 4, 10, 100, 1, ⟨2020, 1, 1⟩, ⟨2020, 5, 1⟩, true⟩] +
          CreditScoreService.scoreActivity ⟨2026, 10, 12⟩
            [⟨1, 1, 300000, 4, 10, 100, 1, ⟨2020, 1, 1⟩, ⟨2020, 5, 1⟩, true⟩] +
          CreditScoreService.scoreVolume ⟨1, 27778, 1000000, 0⟩
            [⟨1, 1, 300000, 4, 10, 100, 1, ⟨2020, 1, 1⟩, ⟨2020, 5, 1⟩, true⟩]))) ∧
    0 ≤ CreditScoreService.calculate ⟨2026, 10, 12⟩ ⟨1, 27778, 1000000, 0⟩
      [⟨1, 1, 300000, 4, 10, 100, 1, ⟨2020, 1, 1⟩, ⟨2020, 5, 1⟩, true⟩] := by
  have h := C7_score_rounding ⟨2026, 10, 12⟩ ⟨1, 27778, 1000000, 0⟩
    [⟨1, 1, 300000, 4, 10, 100, 1, ⟨2020, 1, 1⟩, ⟨2020, 5, 1⟩, true⟩]
  exact ⟨h.1 rfl (by norm_num), h.2.1⟩

/-- C4: when origination finds the customer and the eligibility decision
approves, exactly one new loan row is appended — with `start_date` the
current date, `end_date` that date plus `tenure` months, `is_active`,
zero EMIs paid, and the decision's corrected rate and EMI — and the
customer's `current_debt` grows by exactly the requested principal. -/
theorem C4_originate_approved (st : State) (cid : ℕ) (amount rate : ℚ) (n : ℕ)
    (customer : Customer) (elig : EligibilityResponse)
    (hfind : st.customers.find? (·.id == cid) = some customer)
    (hcheck : EligibilityService.check st.today customer (st.loansOf cid) amount rate n = some elig)
    (happ : elig.approval = true) :
    ∃ st' res, LoanService.create_loan false st cid amount rate n = (st', .ok res) ∧
      res.loan_approved = true ∧ res.loan_id = some st.next_loan_id ∧
      res.monthly_installment = some elig.monthly_installment ∧
      st'.loans = st.loans ++
        [{ id := st.next_loan_id, customer_id := cid, loan_amount := amount, tenure := n,
           interest_rate := elig.corrected_interest_rate,
           monthly_installment := elig.monthly_installment, emis_paid_on_time := 0,
           start_date := st.today, end_date := addMonths st.today n, is_active := true }] ∧
      st'.customers = st.customers.map (fun c => if c.id == cid then
        { customer with current_debt := customer.current_debt + amount } else c) :=
  ⟨_, _, create_loan_approved_eq hfind hcheck happ, rfl, rfl, rfl, rfl, rfl⟩

/-- Witness for C4: the spec's concrete scenario — debt 0, one approved
origination of 100000 — ends with `current_debt = 100000.00` and exactly
one new active loan. -/
theorem C4_originate_approved_witness :
    ∃ st' res, LoanService.create_loan false
        ⟨[⟨1, 100000, 3600000, 0⟩], [], 1, ⟨2026, 10, 12⟩⟩ 1 100000 10 12 = (st', .ok res) ∧
      res.loan_approved = true ∧ res.loan_id = some 1 ∧
      res.monthly_installment = some (888488 / 100) ∧
      st'.loans = [⟨1, 1, 100000, 12, 12, 888488 / 100, 0, ⟨2026, 10, 12⟩,
        ⟨2027, 10, 12⟩, true⟩] ∧
      st'.customers = [⟨1, 100000, 3600000, 100000⟩] := by
  obtain ⟨st', res, heq, h1, h2, h3, h4, h5⟩ :=
    C4_originate_approved ⟨[⟨1, 100000, 3600000, 0⟩], [], 1, ⟨2026, 10, 12⟩⟩ 1 100000 10 12
      ⟨1, 100000, 3600000, 0⟩ ⟨1, true, 10, 12, 12, 888488 / 100⟩ rfl check_S1 rfl
  have hdate : addMonths ⟨2026, 10, 12⟩ 12 = ⟨2027, 10, 12⟩ := by decide
  refine ⟨st', res, heq, h1, h2, h3, ?_, ?_⟩
  · rw [h4, List.nil_append, hdate]
  · rw [h5]
    simp only [List.map_cons, List.map_nil, beq_self_eq_true, if_true]
    norm_num

lemma emi_1850000_12_180 : calculate_emi 1850000 12 180 = some (2220311 / 100) := by
  have h := calculate_emi_pos_eval 1850000 12 180 2220311 (by norm_num) (by norm_num)
    (by norm_num) (by positivity) (by norm_num) (by norm_num)
  simpa using h

lemma check_C6_first :
    EligibilityService.check ⟨2026, 1, 15⟩ ⟨1, 100000, 3600000, 0⟩ [] 1850000 12 180 =
      some ⟨1, true, 12, 12, 180, 2220311 / 100⟩ := by
  have hs : CreditScoreService.calculate ⟨2026, 1, 15⟩ ⟨1, 100000, 3600000, 0⟩ [] = 50 := rfl
  have hslab : EligibilityService.slabDecision 50 12 = (true, 12) := by
    norm_num [EligibilityService.slabDecision]
  have hcur : currentEmiTotal [] = (0 : ℚ) := rfl
  rw [check_eval_slab (by norm_num) (by norm_num) (by norm_num)
    (by norm_num) (by rw [hcur]; norm_num)]
  rw [hs, hslab]
  rw [quantize2_emiRaw_eq (by norm_num) (by norm_num) (by norm_num) emi_1850000_12_180, hcur]
  simp only [Option.some.injEq, EligibilityResponse.mk.injEq]
  norm_num

lemma st1_C6 :
    approvedState ⟨[⟨1, 100000, 3600000, 0⟩], [], 1, ⟨2026, 1, 15⟩⟩ 1 1850000 180
      ⟨1, 100000, 3600000, 0⟩ ⟨1, true, 12, 12, 180, 2220311 / 100⟩ =
    ⟨[⟨1, 100000, 3600000, 1850000⟩],
      [⟨1, 1, 1850000, 180, 12, 2220311 / 100, 0, ⟨2026, 1, 15⟩, ⟨2041, 1, 15⟩, true⟩],
      2, ⟨2026, 1, 15⟩⟩ := by
  have hdate : addMonths ⟨2026, 1, 15⟩ 180 = ⟨2041, 1, 15⟩ := by decide
  simp only [approvedState, State.mk.injEq, List.nil_append, hdate, and_true, true_and]
  simp only [List.map_cons, List.map_nil, beq_self_eq_true, if_true]
  norm_num

lemma run_C6_first :
    LoanService.create_loan false ⟨[⟨1, 100000, 3600000, 0⟩], [], 1, ⟨2026, 1, 15⟩⟩
        1 1850000 12 180 =
      (⟨[⟨1, 100000, 3600000, 1850000⟩],
        [⟨1, 1, 1850000, 180, 12, 2220311 / 100, 0, ⟨2026, 1, 15⟩, ⟨2041, 1, 15⟩, true⟩],
        2, ⟨2026, 1, 15⟩⟩,
       .ok ⟨some 1, 1, true, "Loan approved successfully.", some (2220311 / 100)⟩) := by
  have hfind : (⟨[⟨1, 100000, 3600000, 0⟩], [], 1, ⟨2026, 1, 15⟩⟩ : State).customers.find?
      (·.id == 1) = some ⟨1, 100000, 3600000, 0⟩ := rfl
  rw [create_loan_approved_eq hfind check_C6_first rfl, st1_C6]
  rfl

lemma score_C6_second :
    CreditScoreService.calculate ⟨2026, 1, 15⟩ ⟨1, 100000, 3600000, 1850000⟩
      [⟨1, 1, 1850000, 180, 12, 2220311 / 100, 0, ⟨2026, 1, 15⟩, ⟨2041, 1, 15⟩, true⟩] = 46 := by
  have hA : CreditScoreService.scoreOnTime
      [⟨1, 1, 1850000, 180, 12, 2220311 / 100, 0, ⟨2026, 1, 15⟩, ⟨2041, 1, 15⟩, true⟩] = 0 := by
    norm_num [CreditScoreService.scoreOnTime]
  have hB : CreditScoreService.scoreNumLoans
      [⟨1, 1, 1850000, 180, 12, 2220311 / 100, 0, ⟨2026, 1, 15⟩, ⟨2041, 1, 15⟩, true⟩] = 20 := by
    norm_num [CreditScoreService.scoreNumLoans]
  have hC : CreditScoreService.scoreActivity ⟨2026, 1, 15⟩
      [⟨1, 1, 1850000, 180, 12, 2220311 / 100, 0, ⟨2026, 1, 15⟩, ⟨2041, 1, 15⟩, true⟩] = 14 := by
    norm_num [CreditScoreService.scoreActivity]
  have hD : CreditScoreService.scoreVolume ⟨1, 100000, 3600000, 1850000⟩
      [⟨1, 1, 1850000, 180, 12, 2220311 / 100, 0, ⟨2026, 1, 15⟩, ⟨2041, 1, 15⟩, true⟩] = 12 := by
    norm_num [CreditScoreService.scoreVolume]
  rw [CreditScoreService.calculate]
  simp only [hA, hB, hC, hD, List.isEmpty_cons, List.filter_cons_of_pos, List.filter_nil,
    List.map_cons, List.map_nil, List.sum_cons, List.sum_nil]
  rw [if_neg (by norm_num), if_neg (by norm_num)]
  rw [show (0 + 20 + 14 + 12 : ℚ) = ((46 : ℤ) : ℚ) by norm_num,
    roundHalfEven_eval ((46 : ℤ) : ℚ) 46 (by norm_num) (by norm_num)]
  norm_num

lemma check_C6_second :
    EligibilityService.check ⟨2026, 1, 15⟩ ⟨1, 100000, 3600000, 1850000⟩
      [⟨1, 1, 1850000, 180, 12, 2220311 / 100, 0, ⟨2026, 1, 15⟩, ⟨2041, 1, 15⟩, true⟩]
      1850000 12 180 =
      some ⟨1, true, 12, 12, 180, 2220311 / 100⟩ := by
  have hslab : EligibilityService.slabDecision 46 12 = (true, 12) := by
    norm_num [EligibilityService.slabDecision]
  have hcur : currentEmiTotal
      [⟨1, 1, 1850000, 180, 12, 2220311 / 100, 0, ⟨2026, 1, 15⟩, ⟨2041, 1, 15⟩, true⟩] =
      2220311 / 100 := by
    norm_num [currentEmiTotal]
  rw [check_eval_slab (by norm_num) (by norm_num) (by norm_num)
    (by norm_num) (by rw [hcur]; norm_num)]
  rw [score_C6_second, hslab]
  rw [quantize2_emiRaw_eq (by norm_num) (by norm_num) (by norm_num) emi_1850000_12_180, hcur]
  simp only [Option.some.injEq, EligibilityResponse.mk.injEq]
  norm_num

lemma run_C6_second :
    ∃ st₂ : State,
      LoanService.create_loan false
        ⟨[⟨1, 100000, 3600000, 1850000⟩],
          [⟨1, 1, 1850000, 180, 12, 2220311 / 100, 0, ⟨2026, 1, 15⟩, ⟨2041, 1, 15⟩, true⟩],
          2, ⟨2026, 1, 15⟩⟩ 1 1850000 12 180 =
        (st₂, .ok ⟨some 2, 1, true, "Loan approved successfully.", some (2220311 / 100)⟩) := by
  have hfind : (⟨[⟨1, 100000, 3600000, 1850000⟩],
      [⟨1, 1, 1850000, 180, 12, 2220311 / 100, 0, ⟨2026, 1, 15⟩, ⟨2041, 1, 15⟩, true⟩],
      2, ⟨2026, 1, 15⟩⟩ : State).customers.find? (·.id == 1) =
      some ⟨1, 100000, 3600000, 1850000⟩ := rfl
  exact ⟨_, create_loan_approved_eq hfind check_C6_second rfl⟩

/-- C6 counterexample: serialized one after the other (which is what the
per-customer lock enforces), two originations of 1850000 against
`approved_limit` 3600000 are BOTH approved even though their combined
principal 3700000 exceeds the limit — eligibility never compares the
existing active-loan sum plus the new amount against `approved_limit`,
so "exactly one call is approved" fails for the combined-principal case. -/
theorem C6_counterexample :
    ∃ st₁ res₁ st₂ res₂,
      LoanService.create_loan false ⟨[⟨1, 100000, 3600000, 0⟩], [], 1, ⟨2026, 1, 15⟩⟩
          1 1850000 12 180 = (st₁, .ok res₁) ∧
      res₁.loan_approved = true ∧
      LoanService.create_loan false st₁ 1 1850000 12 180 = (st₂, .ok res₂) ∧
      res₂.loan_approved = true ∧
      (3600000 : ℚ) < 1850000 + 1850000 ∧ (1850000 : ℚ) ≤ 3600000 := by
  obtain ⟨st₂, h₂⟩ := run_C6_second
  exact ⟨_, _, st₂, _, run_C6_first, rfl, h₂, rfl, by norm_num, by norm_num⟩

lemma loansOf_approvedState (st : State) (cid : ℕ) (a : ℚ) (n : ℕ)
    (customer : Customer) (elig : EligibilityResponse) :
    (approvedState st cid a n customer elig).loansOf cid =
      st.loansOf cid ++
        [{ id := st.next_loan_id, customer_id := cid, loan_amount := a, tenure := n,
           interest_rate := elig.corrected_interest_rate,
           monthly_installment := elig.monthly_installment, emis_paid_on_time := 0,
           start_date := st.today, end_date := addMonths st.today n, is_active := true }] := by
  simp [approvedState, State.loansOf, List.filter_append]

lemma currentEmiTotal_append (l₁ l₂ : List Loan) :
    currentEmiTotal (l₁ ++ l₂) = currentEmiTotal l₁ + currentEmiTotal l₂ := by
  simp [currentEmiTotal, List.filter_append]

/-- C6 amended: concurrent originations for one customer serialize (the
row lock makes the second run against the first call's committed state —
modelled here as sequential composition), and no serialized pair of
approved originations can jointly breach the 50%-of-salary EMI ceiling:
whenever the customer's stored active installments are non-negative (the
data model's `monthly_installment` is a non-negative decimal), if both
calls are approved the two new EMIs sum to at most half the salary.
The combined-principal-over-`approved_limit` scenario, however, is NOT
rejected by the code (see the counterexample): both calls can be
approved. -/
theorem C6_serialized_emi_cap (st : State) (cid : ℕ) (customer : Customer)
    (hfind : st.customers.find? (·.id == cid) = some customer)
    (hpos : 0 ≤ currentEmiTotal (st.loansOf cid))
    (a₁ r₁ : ℚ) (n₁ : ℕ) (a₂ r₂ : ℚ) (n₂ : ℕ)
    (st₁ st₂ : State) (res₁ res₂ : CreateLoanResult)
    (h₁ : LoanService.create_loan false st cid a₁ r₁ n₁ = (st₁, .ok res₁))
    (h₁a : res₁.loan_approved = true)
    (h₂ : LoanService.create_loan false st₁ cid a₂ r₂ n₂ = (st₂, .ok res₂))
    (h₂a : res₂.loan_approved = true) :
    ∃ e₁ e₂ : ℚ, res₁.monthly_installment = some e₁ ∧ res₂.monthly_installment = some e₂ ∧
      e₁ + e₂ ≤ (customer.monthly_salary : ℚ) * (1/2) := by
  obtain ⟨c₁, hf₁, elig₁, hc₁, hcase₁⟩ := create_loan_body_ok_inv (create_loan_ok_body h₁)
  have hcc : c₁ = customer := by
    rw [hfind] at hf₁
    exact ((Option.some.injEq _ _).mp hf₁).symm
  subst hcc
  rcases hcase₁ with ⟨ha₁, -, hres₁, hst₁⟩ | ⟨-, hres₁, -⟩
  swap
  · rw [hres₁] at h₁a
    exact absurd h₁a (by simp [rejectedResult])
  obtain ⟨c₂, hf₂, elig₂, hc₂, hcase₂⟩ := create_loan_body_ok_inv (create_loan_ok_body h₂)
  have hc₂eq : c₂ = { c₁ with current_debt := c₁.current_debt + a₁ } := by
    have hupd := find?_map_update st.customers cid c₁
      { c₁ with current_debt := c₁.current_debt + a₁ } hfind rfl
    rw [hst₁] at hf₂
    have : (approvedState st cid a₁ n₁ c₁ elig₁).customers.find? (·.id == cid) =
        some { c₁ with current_debt := c₁.current_debt + a₁ } := hupd
    rw [this] at hf₂
    exact ((Option.some.injEq _ _).mp hf₂).symm
  rcases hcase₂ with ⟨ha₂, -, hres₂, -⟩ | ⟨-, hres₂, -⟩
  swap
  · rw [hres₂] at h₂a
    exact absurd h₂a (by simp [rejectedResult])
  have hbound := check_approval_bound hc₂ ha₂
  have hloans : st₁.loansOf cid = st.loansOf cid ++
      [{ id := st.next_loan_id, customer_id := cid, loan_amount := a₁, tenure := n₁,
         interest_rate := elig₁.corrected_interest_rate,
         monthly_installment := elig₁.monthly_installment, emis_paid_on_time := 0,
         start_date := st.today, end_date := addMonths st.today n₁, is_active := true }] := by
    rw [hst₁, loansOf_approvedState]
  rw [hloans, currentEmiTotal_append] at hbound
  have hcur : currentEmiTotal
      [{ id := st.next_loan_id, customer_id := cid, loan_amount := a₁, tenure := n₁,
         interest_rate := elig₁.corrected_interest_rate,
         monthly_installment := elig₁.monthly_installment, emis_paid_on_time := 0,
         start_date := st.today, end_date := addMonths st.today n₁, is_active := true }] =
      elig₁.monthly_installment := by
    simp [currentEmiTotal]
  rw [hcur, hc₂eq] at hbound
  refine ⟨elig₁.monthly_installment, elig₂.monthly_installment, ?_, ?_, ?_⟩
  · rw [hres₁]
    rfl
  · rw [hres₂]
    rfl
  · dsimp only at hbound
    linarith

/-- Witness for the amended C6: the two serialized approved originations
of 1850000 at 12% over 180 months have EMIs 22203.11 each, and indeed
22203.11 + 22203.11 ≤ 50000. -/
theorem C6_serialized_emi_cap_witness :
    ∃ e₁ e₂ : ℚ,
      (some (2220311 / 100) : Option ℚ) = some e₁ ∧
      (some (2220311 / 100) : Option ℚ) = some e₂ ∧
      e₁ + e₂ ≤ ((100000 : ℕ) : ℚ) * (1/2) := by
  obtain ⟨st₂, h₂⟩ := run_C6_second
  exact C6_serialized_emi_cap ⟨[⟨1, 100000, 3600000, 0⟩], [], 1, ⟨2026, 1, 15⟩⟩ 1
    ⟨1, 100000, 3600000, 0⟩ rfl le_rfl 1850000 12 180 1850000 12 180 _ st₂ _ _
    run_C6_first rfl h₂ rfl

lemma intercalate_single (x : String) : String.intercalate " " [x] = x := by
  simp [String.intercalate, List.intercalate, String.intercalate.go]

lemma intercalate_pair (x y : String) : String.intercalate " " [x, y] = x ++ " " ++ y := by
  simp [String.intercalate, List.intercalate, String.intercalate.go]

/-- Case analysis of `_get_rejection_message`: a low score and a
current-EMI breach each contribute their named reason (concatenated when
both hold); when neither holds the fixed generic message is returned. -/
lemma get_rejection_message_cases (today : Date) (customer : Customer) (loans : List Loan) :
    (CreditScoreService.calculate today customer loans ≤ 10 →
      currentEmiTotal loans < (customer.monthly_salary : ℚ) * (1/2) →
      LoanService.get_rejection_message today customer loans =
        "Credit score too low (" ++ toString (CreditScoreService.calculate today customer loans) ++
          "/100).") ∧
    (CreditScoreService.calculate today customer loans ≤ 10 →
      (customer.monthly_salary : ℚ) * (1/2) ≤ currentEmiTotal loans →
      LoanService.get_rejection_message today customer loans =
        "Credit score too low (" ++ toString (CreditScoreService.calculate today customer loans) ++
          "/100)." ++ " " ++ "Current EMIs exceed 50% of monthly income.") ∧
    (10 < CreditScoreService.calculate today customer loans →
      (customer.monthly_salary : ℚ) * (1/2) ≤ currentEmiTotal loans →
      LoanService.get_rejection_message today customer loans =
        "Current EMIs exceed 50% of monthly income.") ∧
    (10 < CreditScoreService.calculate today customer loans →
      currentEmiTotal loans < (customer.monthly_salary : ℚ) * (1/2) →
      LoanService.get_rejection_message today customer loans =
        "Loan not approved based on eligibility criteria.") := by
  refine ⟨?_, ?_, ?_, ?_⟩ <;> intro hs hc
  · rw [LoanService.get_rejection_message, if_pos hs, if_neg (not_le.mpr hc),
      List.append_nil, if_neg (by simp)]
    exact intercalate_single _
  · rw [LoanService.get_rejection_message, if_pos hs, if_pos hc, if_neg (by simp)]
    exact intercalate_pair _ _
  · rw [LoanService.get_rejection_message,
      if_neg (show ¬ CreditScoreService.calculate today customer loans ≤ 10 by omega),
      if_pos hc, List.nil_append, if_neg (by simp)]
    exact intercalate_single _
  · rw [LoanService.get_rejection_message,
      if_neg (show ¬ CreditScoreService.calculate today customer loans ≤ 10 by omega),
      if_neg (not_le.mpr hc), List.append_nil]
    simp

/-- C8 counterexample: a rejection caused by the amount exceeding
`approved_limit` and a rejection caused by the new EMI breaching the
affordability ceiling return the IDENTICAL generic message
"Loan not approved based on eligibility criteria." — so the reason does
not name the failing condition for these causes. -/
theorem C8_counterexample :
    ∃ resA resB : CreateLoanResult,
      (LoanService.create_loan false ⟨[⟨1, 100000, 3600000, 0⟩], [], 1, ⟨2026, 10, 12⟩⟩
        1 4000000 10 12).2 = .ok resA ∧
      (LoanService.create_loan false ⟨[⟨1, 25000, 900000, 0⟩], [], 1, ⟨2026, 10, 12⟩⟩
        1 800000 10 12).2 = .ok resB ∧
      resA.loan_approved = false ∧ resB.loan_approved = false ∧
      (3600000 : ℚ) < 4000000 ∧
      ((800000 : ℚ) ≤ 900000 ∧ ((25000 : ℕ) : ℚ) * (1/2) < 0 + 7107903 / 100) ∧
      resA.message = "Loan not approved based on eligibility criteria." ∧
      resB.message = resA.message := by
  have hcheckA : EligibilityService.check ⟨2026, 10, 12⟩ ⟨1, 100000, 3600000, 0⟩ []
      4000000 10 12 = some ⟨1, false, 10, 10, 12, quantize2 (emiRaw 4000000 10 12)⟩ :=
    check_eval_overlimit (by norm_num) (by norm_num) (by norm_num) (by norm_num)
  have hrunA : LoanService.create_loan false
      ⟨[⟨1, 100000, 3600000, 0⟩], [], 1, ⟨2026, 10, 12⟩⟩ 1 4000000 10 12 =
      (⟨[⟨1, 100000, 3600000, 0⟩], [], 1, ⟨2026, 10, 12⟩⟩,
        .ok (rejectedResult ⟨[⟨1, 100000, 3600000, 0⟩], [], 1, ⟨2026, 10, 12⟩⟩ 1
          ⟨1, 100000, 3600000, 0⟩)) :=
    create_loan_rejected_eq rfl hcheckA rfl
  have hcheckB : EligibilityService.check ⟨2026, 10, 12⟩ ⟨1, 25000, 900000, 0⟩ []
      800000 10 12 = some ⟨1, false, 10, 12, 12, 7107903 / 100⟩ := by
    have hs : CreditScoreService.calculate ⟨2026, 10, 12⟩ ⟨1, 25000, 900000, 0⟩ [] = 50 := rfl
    have hslab : EligibilityService.slabDecision 50 10 = (true, 12) := by
      norm_num [EligibilityService.slabDecision]
    have hcur : currentEmiTotal [] = (0 : ℚ) := rfl
    rw [check_eval_slab (by norm_num) (by norm_num) (by norm_num)
      (by norm_num) (by rw [hcur]; norm_num)]
    rw [hs, hslab,
      quantize2_emiRaw_eq (by norm_num) (by norm_num) (by norm_num) emi_800000_12_12, hcur]
    simp only [Option.some.injEq, EligibilityResponse.mk.injEq]
    norm_num
  have hrunB : LoanService.create_loan false
      ⟨[⟨1, 25000, 900000, 0⟩], [], 1, ⟨2026, 10, 12⟩⟩ 1 800000 10 12 =
      (⟨[⟨1, 25000, 900000, 0⟩], [], 1, ⟨2026, 10, 12⟩⟩,
        .ok (rejectedResult ⟨[⟨1, 25000, 900000, 0⟩], [], 1, ⟨2026, 10, 12⟩⟩ 1
          ⟨1, 25000, 900000, 0⟩)) :=
    create_loan_rejected_eq rfl hcheckB rfl
  have hmsgA : LoanService.get_rejection_message ⟨2026, 10, 12⟩ ⟨1, 100000, 3600000, 0⟩ [] =
      "Loan not approved based on eligibility criteria." := by
    have hs : CreditScoreService.calculate ⟨2026, 10, 12⟩ ⟨1, 100000, 3600000, 0⟩ [] = 50 := rfl
    exact (get_rejection_message_cases ⟨2026, 10, 12⟩ ⟨1, 100000, 3600000, 0⟩ []).2.2.2
      (by rw [hs]; norm_num) (by norm_num [currentEmiTotal])
  have hmsgB : LoanService.get_rejection_message ⟨2026, 10, 12⟩ ⟨1, 25000, 900000, 0⟩ [] =
      "Loan not approved based on eligibility criteria." := by
    have hs : CreditScoreService.calculate ⟨2026, 10, 12⟩ ⟨1, 25000, 900000, 0⟩ [] = 50 := rfl
    exact (get_rejection_message_cases ⟨2026, 10, 12⟩ ⟨1, 25000, 900000, 0⟩ []).2.2.2
      (by rw [hs]; norm_num) (by norm_num [currentEmiTotal])
  refine ⟨_, _, by rw [hrunA], by rw [hrunB], rfl, rfl, by norm_num, ⟨by norm_num, by norm_num⟩,
    ?_, ?_⟩
  · exact hmsgA
  · exact hmsgB.trans hmsgA.symm

/-- C8 amended: a rejected origination returns no loan id and no EMI, and
its message is assembled by `_get_rejection_message` — a low-score reason
when the score is ≤ 10, an affordability reason when active EMIs reach
half the salary, both concatenated when both hold; but every other
rejection cause (amount over `approved_limit`, the new-EMI affordability
breach) yields the fixed generic message, which names no condition. -/
theorem C8_rejection_outcome (st : State) (cid : ℕ) (amount rate : ℚ) (n : ℕ)
    (st' : State) (res : CreateLoanResult)
    (h : LoanService.create_loan false st cid amount rate n = (st', .ok res))
    (hrej : res.loan_approved = false) :
    res.loan_id = none ∧ res.monthly_installment = none ∧
    ∃ customer, st.customers.find? (·.id == cid) = some customer ∧
      res.message = LoanService.get_rejection_message st.today customer (st.loansOf cid) ∧
      (CreditScoreService.calculate st.today customer (st.loansOf cid) ≤ 10 →
        currentEmiTotal (st.loansOf cid) < (customer.monthly_salary : ℚ) * (1/2) →
        res.message = "Credit score too low (" ++
          toString (CreditScoreService.calculate st.today customer (st.loansOf cid)) ++
          "/100).") ∧
      (CreditScoreService.calculate st.today customer (st.loansOf cid) ≤ 10 →
        (customer.monthly_salary : ℚ) * (1/2) ≤ currentEmiTotal (st.loansOf cid) →
        res.message = "Credit score too low (" ++
          toString (CreditScoreService.calculate st.today customer (st.loansOf cid)) ++
          "/100)." ++ " " ++ "Current EMIs exceed 50% of monthly income.") ∧
      (10 < CreditScoreService.calculate st.today customer (st.loansOf cid) →
        (customer.monthly_salary : ℚ) * (1/2) ≤ currentEmiTotal (st.loansOf cid) →
        res.message = "Current EMIs exceed 50% of monthly income.") ∧
      (10 < CreditScoreService.calculate st.today customer (st.loansOf cid) →
        currentEmiTotal (st.loansOf cid) < (customer.monthly_salary : ℚ) * (1/2) →
        res.message = "Loan not approved based on eligibility criteria.") := by
  obtain ⟨customer, hfind, elig, -, hcase⟩ := create_loan_body_ok_inv (create_loan_ok_body h)
  rcases hcase with ⟨-, -, hres, -⟩ | ⟨-, hres, -⟩
  · rw [hres] at hrej
    exact absurd hrej (by simp [approvedResult])
  obtain ⟨hm1, hm2, hm3, hm4⟩ := get_rejection_message_cases st.today customer (st.loansOf cid)
  have hmsg : res.message = LoanService.get_rejection_message st.today customer (st.loansOf cid) := by
    rw [hres]
    rfl
  refine ⟨by rw [hres]; rfl, by rw [hres]; rfl, customer, hfind, hmsg, ?_, ?_, ?_, ?_⟩ <;>
    intro hs hc <;> rw [hmsg]
  · exact hm1 hs hc
  · exact hm2 hs hc
  · exact hm3 hs hc
  · exact hm4 hs hc

/-- Witness for the amended C8: an over-extended customer (score 0) whose
active EMIs are 60000 against salary 100000 gets both named reasons
concatenated. -/
theorem C8_rejection_outcome_witness :
    ∃ res : CreateLoanResult,
      (LoanService.create_loan false
        ⟨[⟨1, 100000, 1000000, 0⟩],
          [⟨1, 1, 2000000, 12, 10, 60000, 3, ⟨2026, 1, 1⟩, ⟨2027, 1, 1⟩, true⟩],
          5, ⟨2026, 10, 12⟩⟩ 1 500000 10 12).2 = .ok res ∧
      res.loan_approved = false ∧
      res.message =
        "Credit score too low (0/100). Current EMIs exceed 50% of monthly income." := by
  have hs0 : CreditScoreService.calculate ⟨2026, 10, 12⟩ ⟨1, 100000, 1000000, 0⟩
      [⟨1, 1, 2000000, 12, 10, 60000, 3, ⟨2026, 1, 1⟩, ⟨2027, 1, 1⟩, true⟩] = 0 := by
    rw [CreditScoreService.calculate]
    simp only [List.isEmpty_cons, List.filter_cons_of_pos, List.filter_nil,
      List.map_cons, List.map_nil, List.sum_cons, List.sum_nil]
    rw [if_neg (by norm_num), if_pos (by norm_num)]
  have hcur : currentEmiTotal
      [⟨1, 1, 2000000, 12, 10, 60000, 3, ⟨2026, 1, 1⟩, ⟨2027, 1, 1⟩, true⟩] = 60000 := by
    norm_num [currentEmiTotal]
  have hcheck : EligibilityService.check ⟨2026, 10, 12⟩ ⟨1, 100000, 1000000, 0⟩
      [⟨1, 1, 2000000, 12, 10, 60000, 3, ⟨2026, 1, 1⟩, ⟨2027, 1, 1⟩, true⟩] 500000 10 12 =
      some ⟨1, false, 10, 10, 12, quantize2 (emiRaw 500000 10 12)⟩ :=
    check_eval_busy (by norm_num) (by norm_num) (by norm_num) (by norm_num)
      (by rw [hcur]; norm_num)
  have hrun : LoanService.create_loan false
      ⟨[⟨1, 100000, 1000000, 0⟩],
        [⟨1, 1, 2000000, 12, 10, 60000, 3, ⟨2026, 1, 1⟩, ⟨2027, 1, 1⟩, true⟩],
        5, ⟨2026, 10, 12⟩⟩ 1 500000 10 12 =
      (⟨[⟨1, 100000, 1000000, 0⟩],
        [⟨1, 1, 2000000, 12, 10, 60000, 3, ⟨2026, 1, 1⟩, ⟨2027, 1, 1⟩, true⟩],
        5, ⟨2026, 10, 12⟩⟩,
       .ok (rejectedResult
         ⟨[⟨1, 100000, 1000000, 0⟩],
          [⟨1, 1, 2000000, 12, 10, 60000, 3, ⟨2026, 1, 1⟩, ⟨2027, 1, 1⟩, true⟩],
          5, ⟨2026, 10, 12⟩⟩ 1 ⟨1, 100000, 1000000, 0⟩)) :=
    create_loan_rejected_eq rfl hcheck rfl
  obtain ⟨hid, hmi, customer, hfind, hmsg, h1, h2, h3, h4⟩ :=
    C8_rejection_outcome _ _ _ _ _ _ _ hrun rfl
  have hcust : customer = ⟨1, 100000, 1000000, 0⟩ := by
    have : some customer = some (⟨1, 100000, 1000000, 0⟩ : Customer) := by
      rw [← hfind]
      rfl
    exact (Option.some.injEq _ _).mp this
  subst hcust
  have hs0' : CreditScoreService.calculate
      (⟨[⟨1, 100000, 1000000, 0⟩],
        [⟨1, 1, 2000000, 12, 10, 60000, 3, ⟨2026, 1, 1⟩, ⟨2027, 1, 1⟩, true⟩],
        5, ⟨2026, 10, 12⟩⟩ : State).today ⟨1, 100000, 1000000, 0⟩
      ((⟨[⟨1, 100000, 1000000, 0⟩],
        [⟨1, 1, 2000000, 12, 10, 60000, 3, ⟨2026, 1, 1⟩, ⟨2027, 1, 1⟩, true⟩],
        5, ⟨2026, 10, 12⟩⟩ : State).loansOf 1) = 0 := hs0
  have hcur' : currentEmiTotal
      ((⟨[⟨1, 100000, 1000000, 0⟩],
        [⟨1, 1, 2000000, 12, 10, 60000, 3, ⟨2026, 1, 1⟩, ⟨2027, 1, 1⟩, true⟩],
        5, ⟨2026, 10, 12⟩⟩ : State).loansOf 1) = 60000 := hcur
  refine ⟨_, by rw [hrun], rfl, ?_⟩
  have hmsg2 := h2 (by rw [hs0']; norm_num) (by rw [hcur']; norm_num)
  rw [hmsg2, hs0']
  rfl

/-- Witness for C10: the score-50 customer requesting rate 10 receives
corrected rate 12 ≥ 10. -/
theorem C10_corrected_rate_ge_witness :
    (⟨1, true, 10, 12, 12, 888488 / 100⟩ : EligibilityResponse).interest_rate = 10 ∧
    (10 : ℚ) ≤ (⟨1, true, 10, 12, 12, 888488 / 100⟩ : EligibilityResponse).corrected_interest_rate :=
  C10_corrected_rate_ge ⟨2026, 10, 12⟩ ⟨1, 100000, 3600000, 0⟩ [] 100000 10 12
    ⟨1, true, 10, 12, 12, 888488 / 100⟩ check_S1

/-- C5: origination is atomic — a rejected call leaves the state
unchanged; any error is surfaced as-is with the state unchanged; and a
storage failure in the middle of the write (after the loan insert,
before the debt update) aborts the whole transaction: the caller gets
`TransactionAborted` and the state is exactly the original one, so no
partial write is ever visible. -/
theorem C5_atomicity (fail : Bool) (st : State) (cid : ℕ) (amount rate : ℚ) (n : ℕ) :
    (∀ e, (LoanService.create_loan fail st cid amount rate n).2 = .error e →
      (LoanService.create_loan fail st cid amount rate n).1 = st) ∧
    (∀ st' res, LoanService.create_loan fail st cid amount rate n = (st', .ok res) →
      res.loan_approved = false → st' = st) ∧
    (∀ customer elig, st.customers.find? (·.id == cid) = some customer →
      EligibilityService.check st.today customer (st.loansOf cid) amount rate n = some elig →
      elig.approval = true →
      LoanService.create_loan true st cid amount rate n = (st, .error .transactionAborted)) := by
  refine ⟨?_, ?_, ?_⟩
  · intro e h
    exact runAtomic_error_state _ st e h
  · intro st' res h hrej
    obtain ⟨customer, -, elig, -, hcase⟩ := create_loan_body_ok_inv (create_loan_ok_body h)
    rcases hcase with ⟨-, -, hres, -⟩ | ⟨-, -, hst⟩
    · rw [hres] at hrej
      exact absurd hrej (by simp [approvedResult])
    · exact hst
  · intro customer elig hfind hcheck happ
    exact create_loan_aborted_eq hfind hcheck happ

/-- Witness for C5: the mid-write storage failure on an approvable
request returns `TransactionAborted` with the state unchanged, and a
rejected request (amount over the limit) leaves the state unchanged. -/
theorem C5_atomicity_witness :
    LoanService.create_loan true ⟨[⟨1, 100000, 3600000, 0⟩], [], 1, ⟨2026, 10, 12⟩⟩
        1 100000 10 12 =
      (⟨[⟨1, 100000, 3600000, 0⟩], [], 1, ⟨2026, 10, 12⟩⟩, .error .transactionAborted) ∧
    (LoanService.create_loan false ⟨[⟨1, 100000, 3600000, 0⟩], [], 1, ⟨2026, 10, 12⟩⟩
        1 4000000 10 12).1 =
      ⟨[⟨1, 100000, 3600000, 0⟩], [], 1, ⟨2026, 10, 12⟩⟩ := by
  constructor
  · exact (C5_atomicity true ⟨[⟨1, 100000, 3600000, 0⟩], [], 1, ⟨2026, 10, 12⟩⟩
      1 100000 10 12).2.2 ⟨1, 100000, 3600000, 0⟩ ⟨1, true, 10, 12, 12, 888488 / 100⟩
      rfl check_S1 rfl
  · have hcheckR : EligibilityService.check ⟨2026, 10, 12⟩ ⟨1, 100000, 3600000, 0⟩ []
        4000000 10 12 = some ⟨1, false, 10, 10, 12, quantize2 (emiRaw 4000000 10 12)⟩ :=
      check_eval_overlimit (by norm_num) (by norm_num) (by norm_num) (by norm_num)
    have hrej : LoanService.create_loan false
        ⟨[⟨1, 100000, 3600000, 0⟩], [], 1, ⟨2026, 10, 12⟩⟩ 1 4000000 10 12 =
        (⟨[⟨1, 100000, 3600000, 0⟩], [], 1, ⟨2026, 10, 12⟩⟩,
          .ok (rejectedResult ⟨[⟨1, 100000, 3600000, 0⟩], [], 1, ⟨2026, 10, 12⟩⟩ 1
            ⟨1, 100000, 3600000, 0⟩)) :=
      create_loan_rejected_eq rfl hcheckR rfl
    have h2 := (C5_atomicity false ⟨[⟨1, 100000, 3600000, 0⟩], [], 1, ⟨2026, 10, 12⟩⟩
      1 4000000 10 12).2.1 _ _ hrej rfl
    rw [hrej]

end Credit
